import Mathlib

/-!
Shallow embedding of the manikyr watch-state registry and event-dispatch
engine (manikyr.go, utils.go). Pure Go functions become Lean functions;
the stateful registry becomes explicit state passing; fallible collaborator
calls (fsnotify.NewWatcher, watcher.Add, os.Stat, os.Remove, imaging.Open,
ioutil.ReadDir) are supplied as explicit outcome parameters.
-/

/-- Errors of the engine: the four sentinel errors declared in manikyr.go
plus an opaque operating-system or collaborator error carrying a message. -/
inductive MkError where
  | rootNotWatched
  | rootWatched
  | subdirNotWatched
  | subdirWatched
  | osErr (msg : String)
deriving Repr, DecidableEq

/-- The resampling filters re-exported by manikyr.go from the imaging
collaborator, as an opaque enumeration. -/
inductive ResampleFilter where
  | nearestNeighbor
  | box
  | linear
  | hermite
  | mitchellNetravali
  | catmullRom
  | bSpline
  | gaussian
  | bartlett
  | lanczos
  | hann
  | hamming
  | blackman
  | welch
  | cosine
deriving Repr, DecidableEq

/-- Outcome of an os.Stat call as the dispatcher inspects it: the error
satisfies os.IsNotExist, or the error is some other non-nil error, or the
call succeeds and the mode classifies as directory, regular file, or
neither. -/
inductive StatResult where
  | notExist
  | statError (msg : String)
  | dir
  | regular
  | other
deriving Repr, DecidableEq

/-- Outcome of the os.Remove call inside removeThumb. -/
inductive RemoveResult where
  | ok
  | notExist
  | failed (msg : String)
deriving Repr, DecidableEq

/-- Pointwise update of a map modelled as a total function with default
values, matching Go map assignment (a missing key reads as the zero
value, here the empty list). -/
def updateMap (f : String → List String) (k : String) (v : List String) :
    String → List String :=
  fun x => if x = k then v else f x

/-- Model of Go path.Join restricted to the already-clean slash-separated
paths used throughout this development (no duplicate separators, no dot
segments), where Join reduces to separator concatenation. -/
def pathJoin (a b : String) : String :=
  if a = "" then b else if b = "" then a else a ++ "/" ++ b

/-- Model of Go path.Base restricted to clean nonempty paths: the last
slash-separated component. -/
def pathBase (p : String) : String :=
  if p = "" then "." else (p.splitOn "/").getLastD p

/-- Model of os.TempDir: some fixed temporary directory outside every
watched tree. -/
def osTempDir : String := "/tmp"

/-- The Manikyr engine state (struct Manikyr in manikyr.go).
roots models the key set of the roots map; subdirs models the subdirs
map (total function with empty default, as Go maps read); watcherPaths
instruments, per root, the set of paths successfully passed to the
fsnotify watcher Add method and not since removed; dispatcherRunning
instruments which roots had their watch goroutine started. The four
function fields and the preference fields copy the Go struct. -/
structure Manikyr where
  roots : List String
  subdirs : String → List String
  watcherPaths : String → List String
  dispatcherRunning : List String
  thumbDirPerms : Nat
  thumbWidth : Int
  thumbHeight : Int
  thumbAlgo : ResampleFilter
  thumbDirGetter : String → String
  thumbNameGetter : String → String
  shouldCreateThumb : String → String → Bool
  shouldWatchSubdir : String → String → Bool

/-- Embeds New (manikyr.go): fresh engine with empty registry and the
documented conservative defaults. -/
def New : Manikyr where
  roots := []
  subdirs := fun _ => []
  watcherPaths := fun _ => []
  dispatcherRunning := []
  thumbDirPerms := 0o777
  thumbWidth := 128
  thumbHeight := 128
  thumbAlgo := .nearestNeighbor
  thumbDirGetter := fun _ => osTempDir
  thumbNameGetter := fun parentFile => pathBase parentFile
  shouldCreateThumb := fun _ _ => false
  shouldWatchSubdir := fun _ _ => false

/-- Embeds Manikyr.AddRoot (manikyr.go). newWatcherErr is the outcome of
fsnotify.NewWatcher, addErr the outcome of the final watcher Add call on
the root path. Returns the new state, the returned error, and whether
this call started the watch goroutine. In the source the root is recorded
and the goroutine started before the Add call, whose error is returned
last. -/
def Manikyr.AddRoot (m : Manikyr) (root : String) (newWatcherErr : Option MkError)
    (addErr : Option MkError) : Manikyr × Option MkError × Bool :=
  if root ∈ m.roots then
    (m, some .rootWatched, false)
  else
    match newWatcherErr with
    | some e => (m, some e, false)
    | none =>
      let m1 : Manikyr :=
        { m with roots := root :: m.roots,
                 dispatcherRunning := root :: m.dispatcherRunning }
      match addErr with
      | some e => (m1, some e, true)
      | none =>
        ({ m1 with watcherPaths := updateMap m1.watcherPaths root [root] },
         none, true)

/-- Embeds Manikyr.RemoveRoot (manikyr.go). Returns the new state, the
returned error, and whether the done signal was sent to the dispatcher.
The source closes the watcher, sends on the done channel, and deletes the
root from every map; it does not itself stop the goroutine (that is the
dispatcher side, see watchStep). -/
def Manikyr.RemoveRoot (m : Manikyr) (root : String) :
    Manikyr × Option MkError × Bool :=
  if root ∈ m.roots then
    ({ m with roots := m.roots.erase root,
              subdirs := updateMap m.subdirs root [],
              watcherPaths := updateMap m.watcherPaths root [] },
     none, true)
  else
    (m, some .rootNotWatched, false)

/-- Embeds Manikyr.AddSubdir (manikyr.go). addErr is the outcome of the
watcher Add call. Returns the new state, the returned error, and the list
of values sent on the root error channel during the call: the source
performs no channel send in AddSubdir, errors are returned synchronously,
so that list is empty in every branch. Membership is appended only after
a successful Add, after an exact duplicate scan of the existing slice. -/
def Manikyr.AddSubdir (m : Manikyr) (root subdir : String)
    (addErr : Option MkError) : Manikyr × Option MkError × List MkError :=
  if root ∈ m.roots then
    if subdir ∈ m.subdirs root then
      (m, some .subdirWatched, [])
    else
      match addErr with
      | some e => (m, some e, [])
      | none =>
        ({ m with
            subdirs := updateMap m.subdirs root (m.subdirs root ++ [subdir]),
            watcherPaths :=
              updateMap m.watcherPaths root (m.watcherPaths root ++ [subdir]) },
         none, [])
  else
    (m, some .rootNotWatched, [])

/-- Embeds Manikyr.RemoveSubdir (manikyr.go). removeErr is the outcome of
the watcher Remove call, which the source returns directly when the
subdir is a member; membership of the first matching slice entry is
removed before that call. -/
def Manikyr.RemoveSubdir (m : Manikyr) (root subdir : String)
    (removeErr : Option MkError) : Manikyr × Option MkError :=
  if root ∈ m.roots then
    if subdir ∈ m.subdirs root then
      ({ m with
          subdirs := updateMap m.subdirs root ((m.subdirs root).erase subdir),
          watcherPaths :=
            updateMap m.watcherPaths root ((m.watcherPaths root).erase subdir) },
       removeErr)
    else
      (m, some .subdirNotWatched)
  else
    (m, some .rootNotWatched)

/-- Input consumed by one iteration of the select statement inside
Manikyr.watch: a filesystem event from the watcher Events channel (with
the result of the comparison of its Op field against fsnotify.Create), an
out-of-band error from the Errors channel, or the done signal sent by
RemoveRoot. -/
inductive WatchInput where
  | fsEvent (name : String) (isCreate : Bool)
  | watcherError (msg : String)
  | done
deriving Repr, DecidableEq

/-- One recorded invocation of a policy predicate: which predicate was
called (true for ShouldWatchSubdir, false for ShouldCreateThumb), its
first argument and its second argument. -/
structure PolicyCall where
  isSubdirPredicate : Bool
  rootArg : String
  pathArg : String
deriving Repr, DecidableEq

/-- Observable outcome of one iteration of the watch loop body: the new
engine state, the values sent on the error channel, the parent files for
which a createThumb goroutine was spawned, the parent files for which
removeThumb was invoked, the policy predicate invocations made, whether
the for loop proceeds to another iteration afterwards, and whether the
iteration hit a Go runtime panic. -/
structure WatchOut where
  m : Manikyr
  errMsgs : List MkError
  spawned : List String
  removeAttempts : List String
  policyCalls : List PolicyCall
  continues : Bool
  crashed : Bool

/-- Embeds one iteration of the select loop of Manikyr.watch (manikyr.go).
stat is the outcome of the os.Stat call on the event path; watcherAddErr
is the outcome of the watcher Add call in the accepted-directory branch
(its error is discarded by the source); removeRes is the outcome of the
os.Remove inside removeThumb (also discarded by the source, which notes
that the error is useless there). Two Go semantic points are embedded
faithfully: a stat error that does not satisfy os.IsNotExist leaves the
FileInfo nil in the create branch, so the subsequent Mode call is a nil
dereference (crashed := true); and the break statement in the done case
terminates only the enclosing select, not the for loop, so the loop
continues after consuming the done signal. -/
def Manikyr.watchStep (m : Manikyr) (root : String) (input : WatchInput)
    (stat : StatResult) (watcherAddErr : Option MkError)
    (removeRes : RemoveResult) : WatchOut :=
  match input with
  | .fsEvent name isCreate =>
    if isCreate then
      match stat with
      | .notExist =>
        ⟨m, [.osErr "stat: no such file or directory"], [], [], [], true, false⟩
      | .statError _ =>
        ⟨m, [], [], [], [], false, true⟩
      | .dir =>
        if m.shouldWatchSubdir root name then
          match watcherAddErr with
          | none =>
            ⟨{ m with watcherPaths :=
                 updateMap m.watcherPaths root (m.watcherPaths root ++ [name]) },
             [], [], [], [⟨true, root, name⟩], true, false⟩
          | some _ =>
            ⟨m, [], [], [], [⟨true, root, name⟩], true, false⟩
        else
          ⟨m, [], [], [], [⟨true, root, name⟩], true, false⟩
      | .regular =>
        if m.shouldCreateThumb root name then
          ⟨m, [], [name], [], [⟨false, root, name⟩], true, false⟩
        else
          ⟨m, [], [], [], [⟨false, root, name⟩], true, false⟩
      | .other =>
        ⟨m, [], [], [], [], true, false⟩
    else
      match stat with
      | .notExist =>
        ⟨m, [], [], [name], [], true, false⟩
      | .statError msg =>
        ⟨m, [.osErr msg], [], [], [], true, false⟩
      | _ =>
        ⟨m, [], [], [], [], true, false⟩
  | .watcherError msg =>
    ⟨m, [.osErr msg], [], [], [], true, false⟩
  | .done =>
    ⟨m, [], [], [], [], true, false⟩

/-- Outcome of one imaging.Open call as distinguished by
openImageWhenReady: success, the image.ErrFormat sentinel, or any other
error. -/
inductive OpenResult where
  | okImg
  | errFormat
  | errOther (msg : String)
deriving Repr, DecidableEq

/-- Embeds the retry loop of openImageWhenReady (utils.go), entered with
the given retry counter. att gives the outcome of the imaging.Open call
performed on each iteration, indexed by the retry counter current at that
iteration. Returns the list of sleeps performed, in milliseconds (the
source sleeps Millisecond times 1000 * (retry * 2) before each open), and
the value of err when the loop exits. On image.ErrFormat the counter is
incremented and the loop exits once retry * 2 > 60 with the incremented
counter; on any other outcome the loop exits at once. -/
def openLoop (att : Nat → OpenResult) (retry : Nat) : List Nat × OpenResult :=
  let t := 1000 * (retry * 2)
  match att retry with
  | .errFormat =>
    if h : (retry + 1) * 2 > 60 then
      ([t], .errFormat)
    else
      let rest := openLoop att (retry + 1)
      (t :: rest.1, rest.2)
  | .okImg => ([t], .okImg)
  | .errOther msg => ([t], .errOther msg)
termination_by 31 - retry
decreasing_by omega

/-- Embeds openImageWhenReady (utils.go): the loop entered with retry = 0. -/
def openImageWhenReady (att : Nat → OpenResult) : List Nat × OpenResult :=
  openLoop att 0

/-- Observable outcome of autoAdd (utils.go): the new engine state, the
returned error, the parent files for which a createThumb goroutine was
spawned, and the policy predicate invocations made, in order. -/
structure AutoAddOut where
  m : Manikyr
  err : Option MkError
  spawned : List String
  calls : List PolicyCall

mutual
/-- Embeds autoAdd (utils.go). fs is the outcome of ioutil.ReadDir per
directory path (entry name and IsDir flag, in directory order, none on a
read failure); statT the outcome of the os.Stat call on a thumbnail
location; wAddErr the outcome of the watcher Add call per path inside
AddSubdir; fuel bounds the recursion depth of the model (the source
recurses on the tree directly). Each entry is joined to root, not to
currentDir, and ShouldWatchSubdir receives currentDir as its first
argument, exactly as the source does. -/
def autoAdd (fs : String → Option (List (String × Bool)))
    (statT : String → StatResult) (wAddErr : String → Option MkError)
    (fuel : Nat) (m : Manikyr) (root currentDir : String) : AutoAddOut :=
  match fuel with
  | 0 => ⟨m, some (.osErr "model recursion fuel exhausted"), [], []⟩
  | fuel + 1 =>
    match fs currentDir with
    | none => ⟨m, some (.osErr "readdir failed"), [], []⟩
    | some files => autoAddEntries fs statT wAddErr fuel m root currentDir files
termination_by (fuel, 0)

/-- Embeds the entry loop of autoAdd over the slice returned by ReadDir,
with the early returns of the source on any error. -/
def autoAddEntries (fs : String → Option (List (String × Bool)))
    (statT : String → StatResult) (wAddErr : String → Option MkError)
    (fuel : Nat) (m : Manikyr) (root currentDir : String)
    (files : List (String × Bool)) : AutoAddOut :=
  match files with
  | [] => ⟨m, none, [], []⟩
  | (name, isDir) :: rest =>
    let filePath := pathJoin root name
    if isDir then
      let call : PolicyCall := ⟨true, currentDir, filePath⟩
      if m.shouldWatchSubdir currentDir filePath then
        let r1 := m.AddSubdir root filePath (wAddErr filePath)
        match r1.2.1 with
        | some e => ⟨r1.1, some e, [], [call]⟩
        | none =>
          let r2 := autoAdd fs statT wAddErr fuel r1.1 root filePath
          match r2.err with
          | some e => ⟨r2.m, some e, r2.spawned, call :: r2.calls⟩
          | none =>
            let r3 :=
              autoAddEntries fs statT wAddErr fuel r2.m root currentDir rest
            ⟨r3.m, r3.err, r2.spawned ++ r3.spawned,
             call :: (r2.calls ++ r3.calls)⟩
      else
        let r3 := autoAddEntries fs statT wAddErr fuel m root currentDir rest
        ⟨r3.m, r3.err, r3.spawned, call :: r3.calls⟩
    else
      let call : PolicyCall := ⟨false, root, filePath⟩
      if m.shouldCreateThumb root filePath then
        let thumbLocation :=
          pathJoin (m.thumbDirGetter filePath) (m.thumbNameGetter filePath)
        match statT thumbLocation with
        | .notExist =>
          let r3 := autoAddEntries fs statT wAddErr fuel m root currentDir rest
          ⟨r3.m, r3.err, filePath :: r3.spawned, call :: r3.calls⟩
        | .statError msg => ⟨m, some (.osErr msg), [], [call]⟩
        | _ =>
          let r3 := autoAddEntries fs statT wAddErr fuel m root currentDir rest
          ⟨r3.m, r3.err, r3.spawned, call :: r3.calls⟩
      else
        let r3 := autoAddEntries fs statT wAddErr fuel m root currentDir rest
        ⟨r3.m, r3.err, r3.spawned, call :: r3.calls⟩
termination_by (fuel, files.length + 1)
end

/-- Embeds Manikyr.Init (manikyr.go): the membership guard followed by
the autoAdd walk started with currentDir = root. -/
def Manikyr.Init (m : Manikyr) (fs : String → Option (List (String × Bool)))
    (statT : String → StatResult) (wAddErr : String → Option MkError)
    (fuel : Nat) (root : String) : AutoAddOut :=
  if root ∈ m.roots then
    autoAdd fs statT wAddErr fuel m root root
  else
    ⟨m, some .rootNotWatched, [], []⟩

/-- The watched-subdirectory membership invariant asserted by the
specification, stated at one root and one path, worded from the spec for
comparison: the path is a member of the subdirs set iff it was accepted
by the ShouldWatchSubdir policy, was successfully subscribed (is among
the paths added to the watcher of that root), and has not since been
observed deleted. -/
def specSubdirInvariant (m : Manikyr) (root p : String)
    (observedDeleted : Bool) : Prop :=
  p ∈ m.subdirs root ↔
    (m.shouldWatchSubdir root p = true ∧ p ∈ m.watcherPaths root ∧
     observedDeleted = false)

/-- A fresh engine whose two policy predicates accept everything. -/
def mkPermissive : Manikyr :=
  { New with shouldWatchSubdir := fun _ _ => true,
             shouldCreateThumb := fun _ _ => true }

/-- The permissive engine after a successful AddRoot of the path /r. -/
def mRooted : Manikyr := (mkPermissive.AddRoot "/r" none none).1

/-- mRooted after a successful AddSubdir of /r/a under /r. -/
def mSubdirAdded : Manikyr := (mRooted.AddSubdir "/r" "/r/a" none).1

/-- The dispatcher iteration of mSubdirAdded that consumes a non-create
notification for /r/a whose stat reports that the path no longer exists:
the deletion of the watched subdirectory /r/a is observed. -/
def deleteObserved : WatchOut :=
  mSubdirAdded.watchStep "/r" (.fsEvent "/r/a" false) .notExist none .ok

/-- A two-level directory tree under the root /r: the root holds one
directory entry a, and /r/a holds one regular file entry b.png. -/
def fsTree : String → Option (List (String × Bool)) := fun p =>
  if p = "/r" then some [("a", true)]
  else if p = "/r/a" then some [("b.png", false)]
  else none

theorem openLoop_format (att : Nat → OpenResult)
    (hf : ∀ k, att k = .errFormat) :
    ∀ n r, r + n = 30 →
    openLoop att r =
      ((List.range' r (31 - r)).map (fun k => 1000 * (k * 2)),
       OpenResult.errFormat) := by
  intro n
  induction n with
  | zero =>
    intro r hr
    have hr30 : r = 30 := by omega
    subst hr30
    rw [openLoop, hf 30]
    norm_num [List.range']
  | succ n ih =>
    intro r hr
    rw [openLoop, hf r]
    have hlt : ¬ ((r + 1) * 2 > 60) := by omega
    have h31 : 31 - r = (31 - (r + 1)) + 1 := by omega
    simp only [hlt, dite_false, dif_neg, not_false_iff]
    rw [ih (r + 1) (by omega)]
    rw [h31, List.range']
    simp

theorem range31_sleep_sum :
    ((List.range' 0 31).map (fun k => 1000 * (k * 2))).sum = 930000 := by
  decide

theorem autoAddEntries_spawned_nil
    (fs : String → Option (List (String × Bool)))
    (statT : String → StatResult) (w : String → Option MkError)
    (hstat : ∀ p, statT p ≠ .notExist) (fuel : Nat)
    (hA : ∀ m root cur, (autoAdd fs statT w fuel m root cur).spawned = []) :
    ∀ files m root cur,
      (autoAddEntries fs statT w fuel m root cur files).spawned = [] := by
  intro files
  induction files with
  | nil =>
    intro m root cur
    rw [autoAddEntries]
  | cons f rest ih =>
    intro m root cur
    obtain ⟨name, isDir⟩ := f
    rw [autoAddEntries]
    cases isDir with
    | true =>
      by_cases hw : m.shouldWatchSubdir cur (pathJoin root name)
      · simp only [hw, if_true, if_pos]
        cases h1 : (m.AddSubdir root (pathJoin root name) (w (pathJoin root name))).2.1 with
        | some e => simp [h1]
        | none =>
          simp only [h1]
          cases h2 : (autoAdd fs statT w fuel
              (m.AddSubdir root (pathJoin root name) (w (pathJoin root name))).1
              root (pathJoin root name)).err with
          | some e => simp [h2, hA]
          | none => simp [h2, hA, ih]
      · simp [hw, ih]
    | false =>
      by_cases hc : m.shouldCreateThumb root (pathJoin root name)
      · simp only [hc, if_true, if_pos, if_neg, Bool.false_eq_true, if_false]
        cases h3 : statT (pathJoin (m.thumbDirGetter (pathJoin root name))
            (m.thumbNameGetter (pathJoin root name))) with
        | notExist =>
          exact absurd h3 (hstat _)
        | statError msg => simp [h3]
        | dir => simp [h3, ih]
        | regular => simp [h3, ih]
        | other => simp [h3, ih]
      · simp [hc, ih]

theorem autoAdd_spawned_nil
    (fs : String → Option (List (String × Bool)))
    (statT : String → StatResult) (w : String → Option MkError)
    (hstat : ∀ p, statT p ≠ .notExist) :
    ∀ fuel m root cur, (autoAdd fs statT w fuel m root cur).spawned = [] := by
  intro fuel
  induction fuel with
  | zero =>
    intro m root cur
    rw [autoAdd]
  | succ n ih =>
    intro m root cur
    rw [autoAdd]
    cases h : fs cur with
    | none => simp
    | some files =>
      simp only []
      exact autoAddEntries_spawned_nil fs statT w hstat n ih files m root cur

/-- C10: New returns an engine with 128 by 128 thumbnail dimensions, the
nearest-neighbor resampling algorithm, thumbnail-directory mode 0777, no
registered roots and no recorded subdirectories, and conservative default
policies: ShouldWatchSubdir and ShouldCreateThumb return false for every
input and ThumbDirGetter returns the temporary directory for every input,
so an unconfigured engine takes no thumbnail or watch actions. -/
theorem C10_new_defaults :
    New.thumbWidth = 128 ∧ New.thumbHeight = 128 ∧
    New.thumbAlgo = ResampleFilter.nearestNeighbor ∧
    New.thumbDirPerms = 0o777 ∧ New.roots = [] ∧
    (∀ r, New.subdirs r = []) ∧
    (∀ r p, New.shouldWatchSubdir r p = false) ∧
    (∀ r p, New.shouldCreateThumb r p = false) ∧
    (∀ p, New.thumbDirGetter p = osTempDir) := by
  refine ⟨rfl, rfl, rfl, rfl, rfl, fun r => rfl, fun r p => rfl,
    fun r p => rfl, fun p => rfl⟩

/-- C4 counterexample: when the initial subscription (the watcher Add
call on the root path) fails, AddRoot propagates the error, yet the root
has already been recorded and its dispatcher goroutine already started,
contradicting the claim that the dispatcher is not started and that
subscription failure leaves no side effects. -/
theorem C4_counterexample :
    ((New.AddRoot "/r" none (some (.osErr "inotify add failed"))).2.1 =
      some (.osErr "inotify add failed")) ∧
    ((New.AddRoot "/r" none (some (.osErr "inotify add failed"))).2.2 = true) ∧
    "/r" ∈ (New.AddRoot "/r" none (some (.osErr "inotify add failed"))).1.roots := by
  refine ⟨rfl, rfl, by decide⟩

/-- C4 amended: AddRoot fails with the root-already-watched error and has
no side effects when the path is already registered; a watcher-creation
failure is propagated with no side effects; otherwise the root is
recorded and its dispatcher task started before the initial subscription
is attempted, and the outcome of that subscription is returned to the
caller, with the root still recorded and the dispatcher already started
even when the subscription fails. -/
theorem C4_amended (m : Manikyr) (root : String) (nwErr addErr : Option MkError) :
    (root ∈ m.roots → m.AddRoot root nwErr addErr = (m, some .rootWatched, false)) ∧
    (root ∉ m.roots → ∀ e, nwErr = some e →
      m.AddRoot root nwErr addErr = (m, some e, false)) ∧
    (root ∉ m.roots → nwErr = none →
      (m.AddRoot root nwErr addErr).2.1 = addErr ∧
      (m.AddRoot root nwErr addErr).2.2 = true ∧
      root ∈ (m.AddRoot root nwErr addErr).1.roots ∧
      root ∈ (m.AddRoot root nwErr addErr).1.dispatcherRunning) := by
  refine ⟨fun h => by simp [Manikyr.AddRoot, h], ?_, ?_⟩
  · intro h e he
    subst he
    simp [Manikyr.AddRoot, h]
  · intro h hnw
    subst hnw
    cases addErr with
    | none => simp [Manikyr.AddRoot, h]
    | some e => simp [Manikyr.AddRoot, h]

theorem C4_amended_witness :
    ("/r" ∉ New.roots) ∧
    ((New.AddRoot "/r" none none).2.1 = none ∧
     (New.AddRoot "/r" none none).2.2 = true ∧
     "/r" ∈ (New.AddRoot "/r" none none).1.roots ∧
     "/r" ∈ (New.AddRoot "/r" none none).1.dispatcherRunning) :=
  ⟨by decide, (C4_amended New "/r" none none).2.2 (by decide) rfl⟩

/-- C9 counterexample: a successful AddSubdir returns no error and sends
nothing on the root error channel, so no SubdirWatched event of any kind
is reported; and a failing subscription returns the error to the caller,
again with nothing sent on the channel, so no Error event is reported
either. -/
theorem C9_counterexample :
    ((mRooted.AddSubdir "/r" "/r/a" none).2.1 = none) ∧
    ((mRooted.AddSubdir "/r" "/r/a" none).2.2 = []) ∧
    ((mRooted.AddSubdir "/r" "/r/b" (some (.osErr "inotify add failed"))).2 =
      (some (.osErr "inotify add failed"), [])) := by
  refine ⟨by decide, by decide, by decide⟩

/-- C9 amended: AddSubdir fails with the root-not-watched error if the
root is unknown and the subdir-already-watched error if the subdir is
already a member; otherwise it subscribes and records membership only
when the subscription succeeds, returning nil on success and the
subscription error on failure; no event is reported in either case, the
error channel is untouched. -/
theorem C9_amended (m : Manikyr) (root subdir : String) (e : Option MkError) :
    (root ∉ m.roots → m.AddSubdir root subdir e = (m, some .rootNotWatched, [])) ∧
    (root ∈ m.roots → subdir ∈ m.subdirs root →
      m.AddSubdir root subdir e = (m, some .subdirWatched, [])) ∧
    (root ∈ m.roots → subdir ∉ m.subdirs root → e = none →
      (m.AddSubdir root subdir e).1.subdirs root = m.subdirs root ++ [subdir] ∧
      (m.AddSubdir root subdir e).2 = (none, [])) ∧
    (root ∈ m.roots → subdir ∉ m.subdirs root → ∀ err, e = some err →
      m.AddSubdir root subdir e = (m, some err, [])) := by
  refine ⟨fun h => by simp [Manikyr.AddSubdir, h], ?_, ?_, ?_⟩
  · intro h hmem
    simp [Manikyr.AddSubdir, h, hmem]
  · intro h hmem hnone
    subst hnone
    simp [Manikyr.AddSubdir, h, hmem, updateMap]
  · intro h hmem err herr
    subst herr
    simp [Manikyr.AddSubdir, h, hmem]

theorem C9_amended_witness :
    ("/r" ∈ mRooted.roots ∧ "/r/a" ∉ mRooted.subdirs "/r" ∧
      (mRooted.AddSubdir "/r" "/r/a" none).1.subdirs "/r" =
        mRooted.subdirs "/r" ++ ["/r/a"] ∧
      (mRooted.AddSubdir "/r" "/r/a" none).2 = (none, [])) ∧
    ("/x" ∉ mRooted.roots ∧
      mRooted.AddSubdir "/x" "/x/a" none = (mRooted, some .rootNotWatched, [])) :=
  ⟨⟨by decide, by decide,
    (C9_amended mRooted "/r" "/r/a" none).2.2.1 (by decide) (by decide) rfl⟩,
   ⟨by decide, (C9_amended mRooted "/x" "/x/a" none).1 (by decide)⟩⟩

/-- C5 counterexample: a non-create notification whose path no longer
exists triggers the removeThumb attempt, and even when the underlying
removal fails with an error other than not-exist (here a disk input
error), nothing is sent on the error channel: the removal outcome is
discarded by the dispatcher, so the failure is not reported as an Error
event, contradicting the claim. -/
theorem C5_counterexample :
    ((New.watchStep "/r" (.fsEvent "/r/a/x.png" false) .notExist none
        (.failed "disk input error")).removeAttempts = ["/r/a/x.png"]) ∧
    ((New.watchStep "/r" (.fsEvent "/r/a/x.png" false) .notExist none
        (.failed "disk input error")).errMsgs = []) := by
  exact ⟨rfl, rfl⟩

/-- C5 amended: for every non-create notification whose path no longer
exists on disk, the engine attempts best-effort removal of the
corresponding thumbnail and discards the outcome entirely: neither a
missing-thumbnail failure nor any other removal failure is reported,
while a stat failure other than non-existence is reported as an error on
the sink. -/
theorem C5_amended (m : Manikyr) (root name msg : String)
    (ae : Option MkError) (rr : RemoveResult) :
    ((m.watchStep root (.fsEvent name false) .notExist ae rr).removeAttempts =
      [name]) ∧
    ((m.watchStep root (.fsEvent name false) .notExist ae rr).errMsgs = []) ∧
    ((m.watchStep root (.fsEvent name false) (.statError msg) ae rr).errMsgs =
      [.osErr msg]) := by
  exact ⟨rfl, rfl, rfl⟩

/-- C6: RemoveRoot on a registered root does send the cancellation signal,
but the dispatcher iteration that consumes the done signal leaves the
loop running: the break statement in the done case of the select
terminates only the select, not the for loop, so the watch loop never
transitions to a stopped state. Evaluated at the failing input. -/
theorem C6_done_loop_continues :
    ((mRooted.RemoveRoot "/r").2.2 = true) ∧
    ((mRooted.watchStep "/r" .done .notExist none .ok).continues = true) := by
  refine ⟨by decide, rfl⟩

/-- C7: on a created notification whose stat fails with an error that is
not a non-existence error, the dispatcher dereferences the nil stat
result (the FileInfo is nil while only os.IsNotExist was checked), which
is a Go runtime panic: the handling is not total. The non-existence case
is handled as claimed: an error is reported and the loop continues.
Evaluated at the failing input. -/
theorem C7_stat_error_crashes :
    ((New.watchStep "/r" (.fsEvent "/r/f" true)
        (.statError "permission denied") none .ok).crashed = true) ∧
    ((New.watchStep "/r" (.fsEvent "/r/f" true) .notExist none .ok).errMsgs ≠ []) ∧
    ((New.watchStep "/r" (.fsEvent "/r/f" true) .notExist none .ok).continues = true) := by
  refine ⟨rfl, by decide, rfl⟩

/-- C1 counterexample: starting from a permissive engine with root /r and
watched subdirectory /r/a, the dispatcher consumes a non-create
notification for /r/a whose stat reports non-existence, that is, the
deletion of /r/a is observed; yet /r/a remains a member of the
watched-subdirectory set afterwards, so the membership invariant of the
claim fails in the state reached by this trace. -/
theorem C1_counterexample :
    (deleteObserved.removeAttempts = ["/r/a"]) ∧
    ("/r/a" ∈ deleteObserved.m.subdirs "/r") ∧
    ¬ specSubdirInvariant deleteObserved.m "/r" "/r/a" true := by
  refine ⟨by decide, by decide, ?_⟩
  intro hinv
  have hmem : "/r/a" ∈ deleteObserved.m.subdirs "/r" := by decide
  have := (hinv.mp hmem).2.2
  simp at this

/-- C1 amended: the watched-subdirectory set is mutated only by the
registry operations: AddSubdir refuses duplicate membership with the
subdir-already-watched error and records membership exactly when the
subscription succeeds, RemoveSubdir removes membership, and the event
dispatcher never mutates the set: it subscribes accepted created
directories to the underlying watcher without recording membership and
does not remove membership when a directory is observed deleted. -/
theorem C1_amended (m : Manikyr) (root subdir : String) (e : Option MkError)
    (input : WatchInput) (st : StatResult) (ae : Option MkError)
    (rr : RemoveResult) :
    ((m.watchStep root input st ae rr).m.subdirs = m.subdirs) ∧
    (root ∈ m.roots → subdir ∈ m.subdirs root →
      m.AddSubdir root subdir e = (m, some .subdirWatched, [])) ∧
    (root ∈ m.roots → subdir ∉ m.subdirs root → e = none →
      (m.AddSubdir root subdir e).1.subdirs root = m.subdirs root ++ [subdir]) ∧
    (root ∈ m.roots → subdir ∈ m.subdirs root →
      subdir ∉ ((m.RemoveSubdir root subdir e).1.subdirs root) ∨
      subdir ∈ (m.subdirs root).erase subdir) := by
  refine ⟨?_, ?_, ?_, ?_⟩
  · cases input with
    | done => rfl
    | watcherError msg => rfl
    | fsEvent name isCreate =>
      cases isCreate with
      | false => cases st <;> rfl
      | true =>
        cases st with
        | notExist => rfl
        | statError msg => rfl
        | other => rfl
        | regular =>
          by_cases h : m.shouldCreateThumb root name <;>
            simp [Manikyr.watchStep, h]
        | dir =>
          by_cases h : m.shouldWatchSubdir root name
          · cases ae <;> simp [Manikyr.watchStep, h]
          · simp [Manikyr.watchStep, h]
  · intro h hmem
    simp [Manikyr.AddSubdir, h, hmem]
  · intro h hmem hnone
    subst hnone
    simp [Manikyr.AddSubdir, h, hmem, updateMap]
  · intro h hmem
    by_cases hdup : subdir ∈ (m.subdirs root).erase subdir
    · exact Or.inr hdup
    · refine Or.inl ?_
      simp [Manikyr.RemoveSubdir, h, hmem, updateMap]
      exact hdup

theorem C1_amended_witness :
    ((mSubdirAdded.watchStep "/r" (.fsEvent "/r/a" false) .notExist none
        .ok).m.subdirs = mSubdirAdded.subdirs) ∧
    ("/r" ∈ mRooted.roots ∧ "/r/a" ∉ mRooted.subdirs "/r" ∧
      (mRooted.AddSubdir "/r" "/r/a" none).1.subdirs "/r" =
        mRooted.subdirs "/r" ++ ["/r/a"]) ∧
    ("/r" ∈ mSubdirAdded.roots ∧ "/r/a" ∈ mSubdirAdded.subdirs "/r" ∧
      mSubdirAdded.AddSubdir "/r" "/r/a" none =
        (mSubdirAdded, some .subdirWatched, [])) :=
  ⟨(C1_amended mSubdirAdded "/r" "/r/a" none (.fsEvent "/r/a" false) .notExist
      none .ok).1,
   ⟨by decide, by decide,
    (C1_amended mRooted "/r" "/r/a" none .done .notExist none .ok).2.2.1
      (by decide) (by decide) rfl⟩,
   ⟨by decide, by decide,
    (C1_amended mSubdirAdded "/r" "/r/a" none .done .notExist none .ok).2.1
      (by decide) (by decide)⟩⟩

/-- C2 counterexample: when every open attempt fails with the format
error, the retry loop performs 31 attempts whose accumulated backoff is
930000 milliseconds, that is 930 seconds, before reporting the final
format error: the loop stops only once the next single delay would exceed
60 seconds, so the total backoff is far beyond roughly 60 seconds (it is
not even below 150 seconds). -/
theorem C2_counterexample :
    ((openImageWhenReady (fun _ => .errFormat)).2 = .errFormat) ∧
    ((openImageWhenReady (fun _ => .errFormat)).1.length = 31) ∧
    ((openImageWhenReady (fun _ => .errFormat)).1.sum = 930000) ∧
    ¬ ((930000 : Nat) ≤ 150000) := by
  have h := openLoop_format (fun _ => .errFormat) (fun k => rfl) 30 0 (by omega)
  rw [openImageWhenReady] at *
  rw [h]
  refine ⟨rfl, by simp, range31_sleep_sum, by omega⟩

/-- C2 amended: the iteration entered with retry counter N sleeps exactly
2N seconds (2000 N milliseconds) before its open attempt; an open that
succeeds or fails with a non-format error on the first attempt ends the
loop at once with that outcome after the initial zero sleep; and an open
that fails with the format error on every attempt ends with the format
error after 31 attempts whose total backoff is 930 seconds, the loop
stopping once the next retry delay would exceed 60 seconds. -/
theorem C2_amended (att : Nat → OpenResult) (r : Nat) (msg : String) :
    ((openLoop att r).1.headI = 1000 * (r * 2)) ∧
    (att 0 = .okImg → openImageWhenReady att = ([0], .okImg)) ∧
    (att 0 = .errOther msg → openImageWhenReady att = ([0], .errOther msg)) ∧
    ((∀ k, att k = .errFormat) →
      (openImageWhenReady att).2 = .errFormat ∧
      (openImageWhenReady att).1.length = 31 ∧
      (openImageWhenReady att).1.sum = 930000) := by
  refine ⟨?_, ?_, ?_, ?_⟩
  · rw [openLoop]
    cases h : att r with
    | okImg => simp
    | errOther m2 => simp
    | errFormat =>
      by_cases hgt : (r + 1) * 2 > 60
      · simp [hgt]
      · simp [hgt]
  · intro h0
    rw [openImageWhenReady, openLoop, h0]
  · intro h0
    rw [openImageWhenReady, openLoop, h0]
  · intro hf
    have h := openLoop_format att hf 30 0 (by omega)
    rw [openImageWhenReady, h]
    refine ⟨rfl, by simp, range31_sleep_sum⟩

theorem C2_amended_witness :
    (openImageWhenReady (fun _ => .okImg) = ([0], .okImg)) ∧
    (openImageWhenReady (fun _ => .errOther "io") = ([0], .errOther "io")) ∧
    ((openImageWhenReady (fun _ => .errFormat)).1.sum = 930000) :=
  ⟨(C2_amended (fun _ => .okImg) 0 "io").2.1 rfl,
   (C2_amended (fun _ => .errOther "io") 0 "io").2.2.1 rfl,
   ((C2_amended (fun _ => .errFormat) 0 "io").2.2.2 (fun _ => rfl)).2.2⟩

/-- C3: the reconciliation walk does not classify entries as the
dispatcher would. On the tree where /r holds directory a and /r/a holds
file b.png, with permissive policies, the walk invokes ShouldWatchSubdir
with arguments ("/r", "/r/a") for the top-level directory but then
invokes ShouldCreateThumb with arguments ("/r", "/r/b.png") for the
nested file, because autoAdd joins every entry name to root instead of to
the directory being read; the dispatcher handling a created notification
for that file invokes ShouldCreateThumb with ("/r", "/r/a/b.png").
Evaluated at the failing input. -/
theorem C3_walk_dispatcher_divergence :
    ((autoAdd fsTree (fun _ => .notExist) (fun _ => none) 5 mRooted "/r"
        "/r").calls =
      [⟨true, "/r", "/r/a"⟩, ⟨false, "/r", "/r/b.png"⟩]) ∧
    ((mRooted.watchStep "/r" (.fsEvent "/r/a/b.png" true) .regular none
        .ok).policyCalls = [⟨false, "/r", "/r/a/b.png"⟩]) ∧
    (("/r/b.png" : String) ≠ "/r/a/b.png") := by
  refine ⟨?_, ?_, by decide⟩
  · rw [autoAdd]
    simp [fsTree, autoAddEntries, autoAdd, mRooted, mkPermissive,
          Manikyr.AddRoot, Manikyr.AddSubdir, New, pathJoin, updateMap,
          osTempDir, pathBase]
  · simp [Manikyr.watchStep, mRooted, mkPermissive, Manikyr.AddRoot, New]

/-- C8: Init fails with the root-not-watched error when invoked on an
unregistered root, and the walk spawns a thumbnail job for an accepted
file only when the stat of the computed thumbnail location reports
non-existence, so a walk in which every thumbnail location already
exists spawns no thumbnail-creation work, which is the second run of two
consecutive reconciliations with no intervening filesystem changes. -/
theorem C8_init_idempotence (m : Manikyr)
    (fs : String → Option (List (String × Bool)))
    (statT : String → StatResult) (w : String → Option MkError)
    (fuel : Nat) (root : String) :
    (root ∉ m.roots →
      m.Init fs statT w fuel root = ⟨m, some .rootNotWatched, [], []⟩) ∧
    ((∀ p, statT p ≠ .notExist) →
      (m.Init fs statT w fuel root).spawned = []) := by
  constructor
  · intro h
    simp [Manikyr.Init, h]
  · intro hstat
    rw [Manikyr.Init]
    by_cases h : root ∈ m.roots
    · simp [h, autoAdd_spawned_nil fs statT w hstat]
    · simp [h]

theorem C8_init_idempotence_witness :
    ("/x" ∉ mRooted.roots ∧
      mRooted.Init fsTree (fun _ => .dir) (fun _ => none) 5 "/x" =
        ⟨mRooted, some .rootNotWatched, [], []⟩) ∧
    ((mRooted.Init fsTree (fun _ => .dir) (fun _ => none) 5 "/r").spawned = []) :=
  ⟨⟨by decide,
    (C8_init_idempotence mRooted fsTree (fun _ => .dir) (fun _ => none) 5
        "/x").1 (by decide)⟩,
   (C8_init_idempotence mRooted fsTree (fun _ => .dir) (fun _ => none) 5
       "/r").2 (fun p => by simp)⟩
